import Mathlib

/-!
Shallow embedding of the py-RubiksCube repository (src/cube.py, src/solver.py,
src/cli.py) and proofs about its claims.

Modelling conventions:
* A facelet color is one of the six symbolic values `W Y G B O R`
  (cube.py `FACE_COLORS`).
* A face index is one of `U D F B L R` (cube.py constants `Cube.U = 0`, ...,
  `Cube.R = 5`; the Python list `self.faces` indexed by these constants is
  modelled as a function from face indices).
* A 3x3 face grid `faces[f]` is a function `Fin 3 → Fin 3 → Color`
  (row-major, as in the Python lists of lists).
* A Python string (move token) is modelled as a `List Char`; Python's
  `str.strip`, `str.endswith`, `move[:-1]`, and `str.split()` become the
  corresponding list operations.
* Each `move_X(prime)` method mutates `self.faces` in place; the net effect of
  its assignment sequence (all reads happen before the corresponding writes,
  via `temp`) is the simultaneous permutation recorded in the `grid*`
  functions below, one per method branch, with every loop
  `for i in range(3): ...` unrolled literally.
-/

namespace PyRubiksCube

/-- Facelet colors W (white), Y (yellow), G (green), B (blue), O (orange),
R (red), from cube.py `FACE_COLORS = ['W', 'Y', 'G', 'B', 'O', 'R']`. -/
inductive Color where
  | W | Y | G | B | O | R
deriving DecidableEq, BEq

/-- Face indices from cube.py: `U = 0, D = 1, F = 2, B = 3, L = 4, R = 5`. -/
inductive FaceIdx where
  | U | D | F | B | L | R
deriving DecidableEq, BEq, Fintype

/-- The full 54-facelet state: `self.faces`, a 3x3 color grid per face. -/
abbrev Grid := FaceIdx → Fin 3 → Fin 3 → Color

/-- A move token: a Python string modelled as a list of characters. -/
abbrev Tok := List Char

/-- cube.py `_rotate_face_clockwise` (lines 92-104): the new face is
`[[f[2][0], f[1][0], f[0][0]], [f[2][1], f[1][1], f[0][1]],
[f[2][2], f[1][2], f[0][2]]]`. -/
def rotateFaceCW (face : Fin 3 → Fin 3 → Color) : Fin 3 → Fin 3 → Color :=
  fun i j =>
    match i, j with
    | 0, 0 => face 2 0
    | 0, 1 => face 1 0
    | 0, 2 => face 0 0
    | 1, 0 => face 2 1
    | 1, 1 => face 1 1
    | 1, 2 => face 0 1
    | 2, 0 => face 2 2
    | 2, 1 => face 1 2
    | 2, 2 => face 0 2

/-- cube.py `_rotate_face_counter_clockwise` (lines 106-118): the new face is
`[[f[0][2], f[1][2], f[2][2]], [f[0][1], f[1][1], f[2][1]],
[f[0][0], f[1][0], f[2][0]]]`. -/
def rotateFaceCCW (face : Fin 3 → Fin 3 → Color) : Fin 3 → Fin 3 → Color :=
  fun i j =>
    match i, j with
    | 0, 0 => face 0 2
    | 0, 1 => face 1 2
    | 0, 2 => face 2 2
    | 1, 0 => face 0 1
    | 1, 1 => face 1 1
    | 1, 2 => face 2 1
    | 2, 0 => face 0 0
    | 2, 1 => face 1 0
    | 2, 2 => face 2 0

/-- Grid effect of `move_U(prime=False)` (cube.py lines 136-144): rotate U
clockwise; then `F[0] = L[0]; L[0] = B[0]; B[0] = R[0]; R[0] = temp` with
`temp = F[0]` saved first. -/
def gridU (g : Grid) : Grid := fun f =>
  match f with
  | .U => rotateFaceCW (g .U)
  | .F => fun i j => match i, j with
      | 0, j => g .L 0 j
      | i, j => g .F i j
  | .L => fun i j => match i, j with
      | 0, j => g .B 0 j
      | i, j => g .L i j
  | .B => fun i j => match i, j with
      | 0, j => g .R 0 j
      | i, j => g .B i j
  | .R => fun i j => match i, j with
      | 0, j => g .F 0 j
      | i, j => g .R i j
  | f2 => g f2

/-- Grid effect of `move_U(prime=True)` (cube.py lines 127-135): rotate U
counter-clockwise; then `F[0] = R[0]; R[0] = B[0]; B[0] = L[0]; L[0] = temp`
with `temp = F[0]` saved first. -/
def gridUprime (g : Grid) : Grid := fun f =>
  match f with
  | .U => rotateFaceCCW (g .U)
  | .F => fun i j => match i, j with
      | 0, j => g .R 0 j
      | i, j => g .F i j
  | .R => fun i j => match i, j with
      | 0, j => g .B 0 j
      | i, j => g .R i j
  | .B => fun i j => match i, j with
      | 0, j => g .L 0 j
      | i, j => g .B i j
  | .L => fun i j => match i, j with
      | 0, j => g .F 0 j
      | i, j => g .L i j
  | f2 => g f2

/-- Grid effect of `move_D(prime=False)` (cube.py lines 161-168): rotate D
clockwise; then `F[2] = R[2]; R[2] = B[2]; B[2] = L[2]; L[2] = temp` with
`temp = F[2]` saved first. -/
def gridD (g : Grid) : Grid := fun f =>
  match f with
  | .D => rotateFaceCW (g .D)
  | .F => fun i j => match i, j with
      | 2, j => g .R 2 j
      | i, j => g .F i j
  | .R => fun i j => match i, j with
      | 2, j => g .B 2 j
      | i, j => g .R i j
  | .B => fun i j => match i, j with
      | 2, j => g .L 2 j
      | i, j => g .B i j
  | .L => fun i j => match i, j with
      | 2, j => g .F 2 j
      | i, j => g .L i j
  | f2 => g f2

/-- Grid effect of `move_D(prime=True)` (cube.py lines 153-160): rotate D
counter-clockwise; then `F[2] = L[2]; L[2] = B[2]; B[2] = R[2]; R[2] = temp`
with `temp = F[2]` saved first. -/
def gridDprime (g : Grid) : Grid := fun f =>
  match f with
  | .D => rotateFaceCCW (g .D)
  | .F => fun i j => match i, j with
      | 2, j => g .L 2 j
      | i, j => g .F i j
  | .L => fun i j => match i, j with
      | 2, j => g .B 2 j
      | i, j => g .L i j
  | .B => fun i j => match i, j with
      | 2, j => g .R 2 j
      | i, j => g .B i j
  | .R => fun i j => match i, j with
      | 2, j => g .F 2 j
      | i, j => g .R i j
  | f2 => g f2

/-- Grid effect of `move_F(prime=False)` (cube.py lines 189-200): rotate F
clockwise; then, with `temp = U[2]`: `U[2][i] = L[2-i][2]`,
`L[i][2] = D[0][i]`, `D[0][i] = R[2-i][0]`, `R[i][0] = temp[i]`. -/
def gridF (g : Grid) : Grid := fun f =>
  match f with
  | .F => rotateFaceCW (g .F)
  | .U => fun i j => match i, j with
      | 2, 0 => g .L 2 2
      | 2, 1 => g .L 1 2
      | 2, 2 => g .L 0 2
      | i, j => g .U i j
  | .L => fun i j => match i, j with
      | 0, 2 => g .D 0 0
      | 1, 2 => g .D 0 1
      | 2, 2 => g .D 0 2
      | i, j => g .L i j
  | .D => fun i j => match i, j with
      | 0, 0 => g .R 2 0
      | 0, 1 => g .R 1 0
      | 0, 2 => g .R 0 0
      | i, j => g .D i j
  | .R => fun i j => match i, j with
      | 0, 0 => g .U 2 0
      | 1, 0 => g .U 2 1
      | 2, 0 => g .U 2 2
      | i, j => g .R i j
  | f2 => g f2

/-- Grid effect of `move_F(prime=True)` (cube.py lines 177-188): rotate F
counter-clockwise; then, with `temp = U[2]`: `U[2][i] = R[i][0]`,
`R[i][0] = D[0][2-i]`, `D[0][i] = L[i][2]`, `L[i][2] = temp[2-i]`. -/
def gridFprime (g : Grid) : Grid := fun f =>
  match f with
  | .F => rotateFaceCCW (g .F)
  | .U => fun i j => match i, j with
      | 2, 0 => g .R 0 0
      | 2, 1 => g .R 1 0
      | 2, 2 => g .R 2 0
      | i, j => g .U i j
  | .R => fun i j => match i, j with
      | 0, 0 => g .D 0 2
      | 1, 0 => g .D 0 1
      | 2, 0 => g .D 0 0
      | i, j => g .R i j
  | .D => fun i j => match i, j with
      | 0, 0 => g .L 0 2
      | 0, 1 => g .L 1 2
      | 0, 2 => g .L 2 2
      | i, j => g .D i j
  | .L => fun i j => match i, j with
      | 0, 2 => g .U 2 2
      | 1, 2 => g .U 2 1
      | 2, 2 => g .U 2 0
      | i, j => g .L i j
  | f2 => g f2

/-- Grid effect of `move_B(prime=False)` (cube.py lines 221-232): rotate B
clockwise; then, with `temp = U[0]`: `U[0][i] = R[i][2]`,
`R[i][2] = D[2][2-i]`, `D[2][i] = L[i][0]`, `L[i][0] = temp[2-i]`. -/
def gridB (g : Grid) : Grid := fun f =>
  match f with
  | .B => rotateFaceCW (g .B)
  | .U => fun i j => match i, j with
      | 0, 0 => g .R 0 2
      | 0, 1 => g .R 1 2
      | 0, 2 => g .R 2 2
      | i, j => g .U i j
  | .R => fun i j => match i, j with
      | 0, 2 => g .D 2 2
      | 1, 2 => g .D 2 1
      | 2, 2 => g .D 2 0
      | i, j => g .R i j
  | .D => fun i j => match i, j with
      | 2, 0 => g .L 0 0
      | 2, 1 => g .L 1 0
      | 2, 2 => g .L 2 0
      | i, j => g .D i j
  | .L => fun i j => match i, j with
      | 0, 0 => g .U 0 2
      | 1, 0 => g .U 0 1
      | 2, 0 => g .U 0 0
      | i, j => g .L i j
  | f2 => g f2

/-- Grid effect of `move_B(prime=True)` (cube.py lines 209-220): rotate B
counter-clockwise; then, with `temp = U[0]`: `U[0][i] = L[2-i][0]`,
`L[i][0] = D[2][i]`, `D[2][i] = R[2-i][2]`, `R[i][2] = temp[i]`. -/
def gridBprime (g : Grid) : Grid := fun f =>
  match f with
  | .B => rotateFaceCCW (g .B)
  | .U => fun i j => match i, j with
      | 0, 0 => g .L 2 0
      | 0, 1 => g .L 1 0
      | 0, 2 => g .L 0 0
      | i, j => g .U i j
  | .L => fun i j => match i, j with
      | 0, 0 => g .D 2 0
      | 1, 0 => g .D 2 1
      | 2, 0 => g .D 2 2
      | i, j => g .L i j
  | .D => fun i j => match i, j with
      | 2, 0 => g .R 2 2
      | 2, 1 => g .R 1 2
      | 2, 2 => g .R 0 2
      | i, j => g .D i j
  | .R => fun i j => match i, j with
      | 0, 2 => g .U 0 0
      | 1, 2 => g .U 0 1
      | 2, 2 => g .U 0 2
      | i, j => g .R i j
  | f2 => g f2

/-- Grid effect of `move_L(prime=False)` (cube.py lines 253-264): rotate L
clockwise; then, with `temp = [U[i][0]]`: `U[i][0] = B[2-i][2]`,
`B[i][2] = D[2-i][0]`, `D[i][0] = F[i][0]`, `F[i][0] = temp[i]`. -/
def gridL (g : Grid) : Grid := fun f =>
  match f with
  | .L => rotateFaceCW (g .L)
  | .U => fun i j => match i, j with
      | 0, 0 => g .B 2 2
      | 1, 0 => g .B 1 2
      | 2, 0 => g .B 0 2
      | i, j => g .U i j
  | .B => fun i j => match i, j with
      | 0, 2 => g .D 2 0
      | 1, 2 => g .D 1 0
      | 2, 2 => g .D 0 0
      | i, j => g .B i j
  | .D => fun i j => match i, j with
      | 0, 0 => g .F 0 0
      | 1, 0 => g .F 1 0
      | 2, 0 => g .F 2 0
      | i, j => g .D i j
  | .F => fun i j => match i, j with
      | 0, 0 => g .U 0 0
      | 1, 0 => g .U 1 0
      | 2, 0 => g .U 2 0
      | i, j => g .F i j
  | f2 => g f2

/-- Grid effect of `move_L(prime=True)` (cube.py lines 241-252): rotate L
counter-clockwise; then, with `temp = [U[i][0]]`: `U[i][0] = F[i][0]`,
`F[i][0] = D[i][0]`, `D[i][0] = B[2-i][2]`, `B[i][2] = temp[2-i]`. -/
def gridLprime (g : Grid) : Grid := fun f =>
  match f with
  | .L => rotateFaceCCW (g .L)
  | .U => fun i j => match i, j with
      | 0, 0 => g .F 0 0
      | 1, 0 => g .F 1 0
      | 2, 0 => g .F 2 0
      | i, j => g .U i j
  | .F => fun i j => match i, j with
      | 0, 0 => g .D 0 0
      | 1, 0 => g .D 1 0
      | 2, 0 => g .D 2 0
      | i, j => g .F i j
  | .D => fun i j => match i, j with
      | 0, 0 => g .B 2 2
      | 1, 0 => g .B 1 2
      | 2, 0 => g .B 0 2
      | i, j => g .D i j
  | .B => fun i j => match i, j with
      | 0, 2 => g .U 2 0
      | 1, 2 => g .U 1 0
      | 2, 2 => g .U 0 0
      | i, j => g .B i j
  | f2 => g f2

/-- Grid effect of `move_R(prime=False)` (cube.py lines 285-296): rotate R
clockwise; then, with `temp = [U[i][2]]`: `U[i][2] = F[i][2]`,
`F[i][2] = D[i][2]`, `D[i][2] = B[2-i][0]`, `B[i][0] = temp[2-i]`. -/
def gridR (g : Grid) : Grid := fun f =>
  match f with
  | .R => rotateFaceCW (g .R)
  | .U => fun i j => match i, j with
      | 0, 2 => g .F 0 2
      | 1, 2 => g .F 1 2
      | 2, 2 => g .F 2 2
      | i, j => g .U i j
  | .F => fun i j => match i, j with
      | 0, 2 => g .D 0 2
      | 1, 2 => g .D 1 2
      | 2, 2 => g .D 2 2
      | i, j => g .F i j
  | .D => fun i j => match i, j with
      | 0, 2 => g .B 2 0
      | 1, 2 => g .B 1 0
      | 2, 2 => g .B 0 0
      | i, j => g .D i j
  | .B => fun i j => match i, j with
      | 0, 0 => g .U 2 2
      | 1, 0 => g .U 1 2
      | 2, 0 => g .U 0 2
      | i, j => g .B i j
  | f2 => g f2

/-- Grid effect of `move_R(prime=True)` (cube.py lines 273-284): rotate R
counter-clockwise; then, with `temp = [U[i][2]]`: `U[i][2] = B[2-i][0]`,
`B[i][0] = D[2-i][2]`, `D[i][2] = F[i][2]`, `F[i][2] = temp[i]`. -/
def gridRprime (g : Grid) : Grid := fun f =>
  match f with
  | .R => rotateFaceCCW (g .R)
  | .U => fun i j => match i, j with
      | 0, 2 => g .B 2 0
      | 1, 2 => g .B 1 0
      | 2, 2 => g .B 0 0
      | i, j => g .U i j
  | .B => fun i j => match i, j with
      | 0, 0 => g .D 2 2
      | 1, 0 => g .D 1 2
      | 2, 0 => g .D 0 2
      | i, j => g .B i j
  | .D => fun i j => match i, j with
      | 0, 2 => g .F 0 2
      | 1, 2 => g .F 1 2
      | 2, 2 => g .F 2 2
      | i, j => g .D i j
  | .F => fun i j => match i, j with
      | 0, 2 => g .U 0 2
      | 1, 2 => g .U 1 2
      | 2, 2 => g .U 2 2
      | i, j => g .F i j
  | f2 => g f2

/-- cube.py `FACE_COLORS = ['W', 'Y', 'G', 'B', 'O', 'R']`, indexed by the
face constants U..R (0..5). -/
def FACE_COLORS : FaceIdx → Color
  | .U => .W
  | .D => .Y
  | .F => .G
  | .B => .B
  | .L => .O
  | .R => .R

/-- cube.py `_create_solved_cube`: each face filled uniformly with its
designated color. -/
def create_solved_cube : Grid := fun f _ _ => FACE_COLORS f

/-- cube.py `Cube`: the six-face facelet grid plus the move log
`self.move_history` (a list of move-token strings). -/
structure Cube where
  faces : Grid
  move_history : List Tok

/-- cube.py `Cube.__init__`: solved faces, empty history. -/
def Cube.new : Cube :=
  { faces := create_solved_cube, move_history := [] }

/-- cube.py `move_U` (lines 120-144): grid permutation plus history append
("U" or "U'"). -/
def move_U (c : Cube) (prime : Bool) : Cube :=
  if prime then
    { faces := gridUprime c.faces, move_history := c.move_history ++ [['U', '\x27']] }
  else
    { faces := gridU c.faces, move_history := c.move_history ++ [['U']] }

/-- cube.py `move_D` (lines 146-168). -/
def move_D (c : Cube) (prime : Bool) : Cube :=
  if prime then
    { faces := gridDprime c.faces, move_history := c.move_history ++ [['D', '\x27']] }
  else
    { faces := gridD c.faces, move_history := c.move_history ++ [['D']] }

/-- cube.py `move_F` (lines 170-200). -/
def move_F (c : Cube) (prime : Bool) : Cube :=
  if prime then
    { faces := gridFprime c.faces, move_history := c.move_history ++ [['F', '\x27']] }
  else
    { faces := gridF c.faces, move_history := c.move_history ++ [['F']] }

/-- cube.py `move_B` (lines 202-232). -/
def move_B (c : Cube) (prime : Bool) : Cube :=
  if prime then
    { faces := gridBprime c.faces, move_history := c.move_history ++ [['B', '\x27']] }
  else
    { faces := gridB c.faces, move_history := c.move_history ++ [['B']] }

/-- cube.py `move_L` (lines 234-264). -/
def move_L (c : Cube) (prime : Bool) : Cube :=
  if prime then
    { faces := gridLprime c.faces, move_history := c.move_history ++ [['L', '\x27']] }
  else
    { faces := gridL c.faces, move_history := c.move_history ++ [['L']] }

/-- cube.py `move_R` (lines 266-296). -/
def move_R (c : Cube) (prime : Bool) : Cube :=
  if prime then
    { faces := gridRprime c.faces, move_history := c.move_history ++ [['R', '\x27']] }
  else
    { faces := gridR c.faces, move_history := c.move_history ++ [['R']] }

/-- Python `str.strip()` on a char-list string: drop whitespace from both
ends. -/
def trimChars (l : List Char) : List Char :=
  ((l.dropWhile Char.isWhitespace).reverse.dropWhile Char.isWhitespace).reverse

/-- The `move_map` dictionary lookup of cube.py `execute_move`
(lines 320-327): the stripped base token must be one of the six face
letters. -/
def faceOfTok (m : Tok) : Option FaceIdx :=
  if m = ['U'] then some .U
  else if m = ['D'] then some .D
  else if m = ['F'] then some .F
  else if m = ['B'] then some .B
  else if m = ['L'] then some .L
  else if m = ['R'] then some .R
  else none

/-- Dispatch table `move_map` of cube.py `execute_move`: face index to the
bound `move_X` method. -/
def faceMove (f : FaceIdx) (c : Cube) (prime : Bool) : Cube :=
  match f with
  | .U => move_U c prime
  | .D => move_D c prime
  | .F => move_F c prime
  | .B => move_B c prime
  | .L => move_L c prime
  | .R => move_R c prime

/-- cube.py `execute_move` (lines 298-334): strip the token; empty does
nothing; strip a trailing '2' (double) and then a trailing apostrophe
(prime); look the base letter up in `move_map` and call it once, or twice
for a double; unknown base letters do nothing. -/
def execute_move (c : Cube) (move : Tok) : Cube :=
  let m1 := trimChars move
  if m1 = [] then c
  else
    let double := m1.getLast? = some '2'
    let m2 := if double then m1.dropLast else m1
    let prime := m2.getLast? = some '\x27'
    let m3 := if prime then m2.dropLast else m2
    match faceOfTok m3 with
    | some f => if double then faceMove f (faceMove f c prime) prime else faceMove f c prime
    | none => c

/-- Python `str.split()` (whitespace-separated, empties dropped), used by
cube.py `execute_algorithm`. -/
def splitWs : List Char → List Char → List Tok
  | [], acc => if acc = [] then [] else [acc.reverse]
  | ch :: rest, acc =>
    if ch.isWhitespace then
      (if acc = [] then splitWs rest [] else acc.reverse :: splitWs rest [])
    else splitWs rest (ch :: acc)

/-- cube.py `execute_algorithm` (lines 336-345): split on whitespace, execute
each token in order. -/
def execute_algorithm (c : Cube) (algorithm : Tok) : Cube :=
  (splitWs algorithm []).foldl execute_move c

/-- cube.py `is_solved` (lines 77-90): every face is uniformly its own
`face[0][0]` color. -/
def is_solved (c : Cube) : Bool :=
  [FaceIdx.U, .D, .F, .B, .L, .R].all fun f =>
    [(0 : Fin 3), 1, 2].all fun i =>
      [(0 : Fin 3), 1, 2].all fun j =>
        c.faces f i j == c.faces f 0 0

/-- solver.py `Solver._get_inverse_move` (lines 28-47): strip; a token ending
in '2' is its own inverse; one ending in an apostrophe drops it; otherwise
an apostrophe is appended. -/
def get_inverse_move (move : Tok) : Tok :=
  let m := trimChars move
  if m.getLast? = some '2' then m
  else if m.getLast? = some '\x27' then m.dropLast
  else m ++ ['\x27']

/-- cli.py inverse computation inside `undo_move` (lines 71-76): an
apostrophe-ended token drops it; a '2'-ended token is unchanged; otherwise an
apostrophe is appended. -/
def cli_inverse (last_move : Tok) : Tok :=
  if last_move.getLast? = some '\x27' then last_move.dropLast
  else if last_move.getLast? = some '2' then last_move
  else last_move ++ ['\x27']

/-- cli.py `undo_move` (lines 54-84): on an empty log report failure and
change nothing; otherwise pop the last token, apply its inverse via
`execute_move`, and restore the history saved before that call (so the log
is exactly the popped-off history). Returns the success flag. -/
def undo_move (c : Cube) : Cube × Bool :=
  match c.move_history.getLast? with
  | none => (c, false)
  | some last_move =>
    let rest := c.move_history.dropLast
    let inverse := cli_inverse last_move
    let c2 := execute_move { faces := c.faces, move_history := rest } inverse
    ({ faces := c2.faces, move_history := rest }, true)

/-! Spec-side comparison definition for the permutation rule of spec.md §4.4. -/

/-- The clockwise quarter turn described by the spec's permutation rule
(spec.md §4.4), written independently of the implementation for comparison:
the face's own grid rotates 90 degrees clockwise in place, and the four
adjacent strips cycle in the direction consistent with that clockwise
rotation, in the net orientation fixed by the program's own adjacency map
(U row 2 touches F row 0, U columns 0/2 touch L/R columns 0/2, B columns
0/2 touch R/L columns 2/0, D row 0 touches F row 2).  Concretely, viewed
from outside the turned face, the strip at twelve o'clock moves to three
o'clock.  For the Up face this means the old Right top row lands on Front
(content cycles Front to Left to Back to Right); for Down, the old Left
bottom row lands on Front; for Front, Back, Left, Right it gives exactly
the tables below. -/
def specQuarterTurnCW : FaceIdx → Grid → Grid
  | .U, g => fun f =>
    match f with
    | .U => rotateFaceCW (g .U)
    | .F => fun i j => match i, j with
        | 0, j => g .R 0 j
        | i, j => g .F i j
    | .R => fun i j => match i, j with
        | 0, j => g .B 0 j
        | i, j => g .R i j
    | .B => fun i j => match i, j with
        | 0, j => g .L 0 j
        | i, j => g .B i j
    | .L => fun i j => match i, j with
        | 0, j => g .F 0 j
        | i, j => g .L i j
    | f2 => g f2
  | .D, g => fun f =>
    match f with
    | .D => rotateFaceCW (g .D)
    | .F => fun i j => match i, j with
        | 2, j => g .L 2 j
        | i, j => g .F i j
    | .L => fun i j => match i, j with
        | 2, j => g .B 2 j
        | i, j => g .L i j
    | .B => fun i j => match i, j with
        | 2, j => g .R 2 j
        | i, j => g .B i j
    | .R => fun i j => match i, j with
        | 2, j => g .F 2 j
        | i, j => g .R i j
    | f2 => g f2
  | .F, g => gridF g
  | .B, g => gridB g
  | .L, g => gridL g
  | .R, g => gridR g

/-! Proof infrastructure: canonical tokens, parsed moves, grid dispatch. -/

/-- The canonical token string appended to the move log by `move_X(prime)`:
the face letter, plus an apostrophe for the counter-clockwise variant. -/
def canonTok (f : FaceIdx) (prime : Bool) : Tok :=
  (match f with
   | .U => ['U'] | .D => ['D'] | .F => ['F']
   | .B => ['B'] | .L => ['L'] | .R => ['R']) ++
  (if prime then ['\x27'] else [])

/-- Grid effect of `move_X(prime)`, dispatched by face and direction. -/
def canonGrid (f : FaceIdx) (prime : Bool) : Grid → Grid :=
  match f, prime with
  | .U, false => gridU
  | .U, true => gridUprime
  | .D, false => gridD
  | .D, true => gridDprime
  | .F, false => gridF
  | .F, true => gridFprime
  | .B, false => gridB
  | .B, true => gridBprime
  | .L, false => gridL
  | .L, true => gridLprime
  | .R, false => gridR
  | .R, true => gridRprime

/-- The token-parsing pipeline of `execute_move` up to the `move_map`
lookup: strip, drop a trailing '2', then drop a trailing apostrophe. -/
def stripBase (move : Tok) : Tok :=
  let m1 := trimChars move
  let m2 := if m1.getLast? = some '2' then m1.dropLast else m1
  if m2.getLast? = some '\x27' then m2.dropLast else m2

/-- The list of elementary quarter turns `(face, prime)` that a single
`execute_move` call performs: none for rejected tokens, one for a plain or
primed token, two for a '2'-suffixed token. -/
def parsedMoves (move : Tok) : List (FaceIdx × Bool) :=
  let m1 := trimChars move
  if m1 = [] then []
  else
    let double := m1.getLast? = some '2'
    let m2 := if double then m1.dropLast else m1
    let prime := m2.getLast? = some '\x27'
    let m3 := if prime then m2.dropLast else m2
    match faceOfTok m3 with
    | some f => if double then [(f, prime), (f, prime)] else [(f, prime)]
    | none => []

/-- Fold a list of elementary quarter turns over a grid. -/
def applyParsed (l : List (FaceIdx × Bool)) (g : Grid) : Grid :=
  l.foldl (fun g2 p => canonGrid p.1 p.2 g2) g

/-- Apply a list of move tokens in order via `execute_move` (the repeated
caller pattern of `execute_algorithm`, `scramble` and the test suite). -/
def apply_moves (c : Cube) (ms : List Tok) : Cube :=
  ms.foldl execute_move c

/-- Count the facelets of one color on one 3x3 face. -/
def faceCount (face : Fin 3 → Fin 3 → Color) (a : Color) : Nat :=
  (if face 0 0 = a then 1 else 0) + (if face 0 1 = a then 1 else 0) +
  (if face 0 2 = a then 1 else 0) + (if face 1 0 = a then 1 else 0) +
  (if face 1 1 = a then 1 else 0) + (if face 1 2 = a then 1 else 0) +
  (if face 2 0 = a then 1 else 0) + (if face 2 1 = a then 1 else 0) +
  (if face 2 2 = a then 1 else 0)

/-- Count the facelets of one color among all 54 facelets of the grid: the
multiset of facelet colors is determined by these six-face counts. -/
def colorCount (g : Grid) (a : Color) : Nat :=
  faceCount (g .U) a + faceCount (g .D) a + faceCount (g .F) a +
  faceCount (g .B) a + faceCount (g .L) a + faceCount (g .R) a

/-- The source-position table of `_rotate_face_clockwise`: the new cell
`(i, j)` reads the old cell `rotPos (i, j)`. -/
def rotPos : Fin 3 × Fin 3 → Fin 3 × Fin 3
  | (0, 0) => (2, 0)
  | (0, 1) => (1, 0)
  | (0, 2) => (0, 0)
  | (1, 0) => (2, 1)
  | (1, 1) => (1, 1)
  | (1, 2) => (0, 1)
  | (2, 0) => (2, 2)
  | (2, 1) => (1, 2)
  | (2, 2) => (0, 2)

/-! Basic lemmas about the twelve elementary turns. -/

theorem faceMove_eq (f : FaceIdx) (prime : Bool) (c : Cube) :
    faceMove f c prime =
      { faces := canonGrid f prime c.faces,
        move_history := c.move_history ++ [canonTok f prime] } := by
  cases f <;> cases prime <;> rfl

theorem gridUprime_gridU (g : Grid) : gridUprime (gridU g) = g := by
  funext f i j
  cases f <;> fin_cases i <;> fin_cases j <;> rfl

theorem gridU_gridUprime (g : Grid) : gridU (gridUprime g) = g := by
  funext f i j
  cases f <;> fin_cases i <;> fin_cases j <;> rfl

theorem gridDprime_gridD (g : Grid) : gridDprime (gridD g) = g := by
  funext f i j
  cases f <;> fin_cases i <;> fin_cases j <;> rfl

theorem gridD_gridDprime (g : Grid) : gridD (gridDprime g) = g := by
  funext f i j
  cases f <;> fin_cases i <;> fin_cases j <;> rfl

theorem gridFprime_gridF (g : Grid) : gridFprime (gridF g) = g := by
  funext f i j
  cases f <;> fin_cases i <;> fin_cases j <;> rfl

theorem gridF_gridFprime (g : Grid) : gridF (gridFprime g) = g := by
  funext f i j
  cases f <;> fin_cases i <;> fin_cases j <;> rfl

theorem gridBprime_gridB (g : Grid) : gridBprime (gridB g) = g := by
  funext f i j
  cases f <;> fin_cases i <;> fin_cases j <;> rfl

theorem gridB_gridBprime (g : Grid) : gridB (gridBprime g) = g := by
  funext f i j
  cases f <;> fin_cases i <;> fin_cases j <;> rfl

theorem gridLprime_gridL (g : Grid) : gridLprime (gridL g) = g := by
  funext f i j
  cases f <;> fin_cases i <;> fin_cases j <;> rfl

theorem gridL_gridLprime (g : Grid) : gridL (gridLprime g) = g := by
  funext f i j
  cases f <;> fin_cases i <;> fin_cases j <;> rfl

theorem gridRprime_gridR (g : Grid) : gridRprime (gridR g) = g := by
  funext f i j
  cases f <;> fin_cases i <;> fin_cases j <;> rfl

theorem gridR_gridRprime (g : Grid) : gridR (gridRprime g) = g := by
  funext f i j
  cases f <;> fin_cases i <;> fin_cases j <;> rfl

/-- The prime variant of each elementary turn undoes the plain variant and
vice versa. -/
theorem canonGrid_inverse (f : FaceIdx) (prime : Bool) (g : Grid) :
    canonGrid f (!prime) (canonGrid f prime g) = g := by
  cases f <;> cases prime
  · exact gridUprime_gridU g
  · exact gridU_gridUprime g
  · exact gridDprime_gridD g
  · exact gridD_gridDprime g
  · exact gridFprime_gridF g
  · exact gridF_gridFprime g
  · exact gridBprime_gridB g
  · exact gridB_gridBprime g
  · exact gridLprime_gridL g
  · exact gridL_gridLprime g
  · exact gridRprime_gridR g
  · exact gridR_gridRprime g

theorem gridU_four (g : Grid) : gridU (gridU (gridU (gridU g))) = g := by
  funext f i j
  cases f <;> fin_cases i <;> fin_cases j <;> rfl

theorem gridD_four (g : Grid) : gridD (gridD (gridD (gridD g))) = g := by
  funext f i j
  cases f <;> fin_cases i <;> fin_cases j <;> rfl

theorem gridF_four (g : Grid) : gridF (gridF (gridF (gridF g))) = g := by
  funext f i j
  cases f <;> fin_cases i <;> fin_cases j <;> rfl

theorem gridB_four (g : Grid) : gridB (gridB (gridB (gridB g))) = g := by
  funext f i j
  cases f <;> fin_cases i <;> fin_cases j <;> rfl

theorem gridL_four (g : Grid) : gridL (gridL (gridL (gridL g))) = g := by
  funext f i j
  cases f <;> fin_cases i <;> fin_cases j <;> rfl

theorem gridR_four (g : Grid) : gridR (gridR (gridR (gridR g))) = g := by
  funext f i j
  cases f <;> fin_cases i <;> fin_cases j <;> rfl

/-! Color-count preservation for each elementary turn. -/

theorem colorCount_gridU (g : Grid) (a : Color) :
    colorCount (gridU g) a = colorCount g a := by
  simp only [colorCount, faceCount, gridU, rotateFaceCW]
  ring

theorem colorCount_gridUprime (g : Grid) (a : Color) :
    colorCount (gridUprime g) a = colorCount g a := by
  simp only [colorCount, faceCount, gridUprime, rotateFaceCCW]
  ring

theorem colorCount_gridD (g : Grid) (a : Color) :
    colorCount (gridD g) a = colorCount g a := by
  simp only [colorCount, faceCount, gridD, rotateFaceCW]
  ring

theorem colorCount_gridDprime (g : Grid) (a : Color) :
    colorCount (gridDprime g) a = colorCount g a := by
  simp only [colorCount, faceCount, gridDprime, rotateFaceCCW]
  ring

theorem colorCount_gridF (g : Grid) (a : Color) :
    colorCount (gridF g) a = colorCount g a := by
  simp only [colorCount, faceCount, gridF, rotateFaceCW]
  ring

theorem colorCount_gridFprime (g : Grid) (a : Color) :
    colorCount (gridFprime g) a = colorCount g a := by
  simp only [colorCount, faceCount, gridFprime, rotateFaceCCW]
  ring

theorem colorCount_gridB (g : Grid) (a : Color) :
    colorCount (gridB g) a = colorCount g a := by
  simp only [colorCount, faceCount, gridB, rotateFaceCW]
  ring

theorem colorCount_gridBprime (g : Grid) (a : Color) :
    colorCount (gridBprime g) a = colorCount g a := by
  simp only [colorCount, faceCount, gridBprime, rotateFaceCCW]
  ring

theorem colorCount_gridL (g : Grid) (a : Color) :
    colorCount (gridL g) a = colorCount g a := by
  simp only [colorCount, faceCount, gridL, rotateFaceCW]
  ring

theorem colorCount_gridLprime (g : Grid) (a : Color) :
    colorCount (gridLprime g) a = colorCount g a := by
  simp only [colorCount, faceCount, gridLprime, rotateFaceCCW]
  ring

theorem colorCount_gridR (g : Grid) (a : Color) :
    colorCount (gridR g) a = colorCount g a := by
  simp only [colorCount, faceCount, gridR, rotateFaceCW]
  ring

theorem colorCount_gridRprime (g : Grid) (a : Color) :
    colorCount (gridRprime g) a = colorCount g a := by
  simp only [colorCount, faceCount, gridRprime, rotateFaceCCW]
  ring

theorem colorCount_canonGrid (f : FaceIdx) (prime : Bool) (g : Grid) (a : Color) :
    colorCount (canonGrid f prime g) a = colorCount g a := by
  cases f <;> cases prime
  · exact colorCount_gridU g a
  · exact colorCount_gridUprime g a
  · exact colorCount_gridD g a
  · exact colorCount_gridDprime g a
  · exact colorCount_gridF g a
  · exact colorCount_gridFprime g a
  · exact colorCount_gridB g a
  · exact colorCount_gridBprime g a
  · exact colorCount_gridL g a
  · exact colorCount_gridLprime g a
  · exact colorCount_gridR g a
  · exact colorCount_gridRprime g a

/-! Characterization of `execute_move` through the parse pipeline. -/

theorem exec_canonTok (c : Cube) (f : FaceIdx) (prime : Bool) :
    execute_move c (canonTok f prime) = faceMove f c prime := by
  cases f <;> cases prime <;> rfl

theorem exec_inverse_canonTok (c : Cube) (f : FaceIdx) (prime : Bool) :
    execute_move c (get_inverse_move (canonTok f prime)) = faceMove f c (!prime) := by
  cases f <;> cases prime <;> rfl

theorem cli_inverse_canonTok (f : FaceIdx) (prime : Bool) :
    cli_inverse (canonTok f prime) = canonTok f (!prime) := by
  cases f <;> cases prime <;> rfl

/-- A single `execute_move` call is the fold of its parsed elementary
quarter turns: none for a rejected token, one for a plain or primed token,
two (the `if double` branch) for a '2'-suffixed token. -/
theorem execute_move_eq_foldl (c : Cube) (move : Tok) :
    execute_move c move =
      (parsedMoves move).foldl (fun c2 p => faceMove p.1 c2 p.2) c := by
  unfold execute_move parsedMoves
  by_cases h1 : trimChars move = []
  · simp [h1]
  · by_cases h2 : (trimChars move).getLast? = some '2'
    · by_cases h3 : (trimChars move).dropLast.getLast? = some '\x27'
      · cases hf : faceOfTok ((trimChars move).dropLast.dropLast) with
        | none => simp [h1, h2, h3, hf]
        | some f => simp [h1, h2, h3, hf]
      · cases hf : faceOfTok ((trimChars move).dropLast) with
        | none => simp [h1, h2, h3, hf]
        | some f => simp [h1, h2, h3, hf]
    · by_cases h3 : (trimChars move).getLast? = some '\x27'
      · cases hf : faceOfTok ((trimChars move).dropLast) with
        | none => simp [h1, h2, h3, hf]
        | some f => simp [h1, h2, h3, hf]
      · cases hf : faceOfTok (trimChars move) with
        | none => simp [h1, h2, h3, hf]
        | some f => simp [h1, h2, h3, hf]

theorem foldl_faceMove_faces (l : List (FaceIdx × Bool)) (c : Cube) :
    (l.foldl (fun c2 p => faceMove p.1 c2 p.2) c).faces = applyParsed l c.faces := by
  induction l generalizing c with
  | nil => rfl
  | cons p l ih =>
    show (l.foldl (fun c2 p => faceMove p.1 c2 p.2) (faceMove p.1 c p.2)).faces = _
    rw [ih (faceMove p.1 c p.2), faceMove_eq]
    rfl

theorem foldl_faceMove_history (l : List (FaceIdx × Bool)) (c : Cube) :
    (l.foldl (fun c2 p => faceMove p.1 c2 p.2) c).move_history =
      c.move_history ++ l.map (fun p => canonTok p.1 p.2) := by
  induction l generalizing c with
  | nil => simp
  | cons p l ih =>
    show (l.foldl (fun c2 p => faceMove p.1 c2 p.2) (faceMove p.1 c p.2)).move_history = _
    rw [ih (faceMove p.1 c p.2), faceMove_eq]
    simp

theorem execute_move_faces (c : Cube) (move : Tok) :
    (execute_move c move).faces = applyParsed (parsedMoves move) c.faces := by
  rw [execute_move_eq_foldl, foldl_faceMove_faces]

theorem execute_move_history (c : Cube) (move : Tok) :
    (execute_move c move).move_history =
      c.move_history ++ (parsedMoves move).map (fun p => canonTok p.1 p.2) := by
  rw [execute_move_eq_foldl, foldl_faceMove_history]

theorem applyParsed_append (l1 l2 : List (FaceIdx × Bool)) (g : Grid) :
    applyParsed (l1 ++ l2) g = applyParsed l2 (applyParsed l1 g) := by
  simp [applyParsed, List.foldl_append]

theorem apply_moves_faces (ms : List Tok) (c : Cube) :
    (apply_moves c ms).faces = applyParsed (ms.flatMap parsedMoves) c.faces := by
  induction ms generalizing c with
  | nil => rfl
  | cons m ms ih =>
    show (apply_moves (execute_move c m) ms).faces = _
    rw [ih, List.flatMap_cons, applyParsed_append, execute_move_faces]

theorem apply_moves_history (ms : List Tok) (c : Cube) :
    (apply_moves c ms).move_history =
      c.move_history ++ (ms.flatMap parsedMoves).map (fun p => canonTok p.1 p.2) := by
  induction ms generalizing c with
  | nil => simp [apply_moves]
  | cons m ms ih =>
    show (apply_moves (execute_move c m) ms).move_history = _
    rw [ih, execute_move_history, List.flatMap_cons, List.map_append, List.append_assoc]

/-- Replaying, over any cube whose grid is `applyParsed l g`, the inverses of
the canonical tokens of `l` in reverse order restores the grid `g`. -/
theorem replay_inverse (l : List (FaceIdx × Bool)) :
    ∀ (c : Cube) (g : Grid), c.faces = applyParsed l g →
      (apply_moves c
        (((l.map fun p => canonTok p.1 p.2).reverse).map get_inverse_move)).faces = g := by
  induction l using List.reverseRecOn with
  | nil =>
    intro c g h
    simpa [apply_moves, applyParsed] using h
  | append_singleton l p ih =>
    intro c g h
    have hl : (((l ++ [p]).map fun p => canonTok p.1 p.2).reverse).map get_inverse_move =
        get_inverse_move (canonTok p.1 p.2) ::
          ((l.map fun p => canonTok p.1 p.2).reverse).map get_inverse_move := by
      simp
    rw [hl]
    show (apply_moves (execute_move c (get_inverse_move (canonTok p.1 p.2))) _).faces = g
    rw [exec_inverse_canonTok]
    apply ih
    rw [faceMove_eq]
    show canonGrid p.1 (!p.2) c.faces = applyParsed l g
    rw [h, applyParsed_append]
    show canonGrid p.1 (!p.2) (applyParsed [p] (applyParsed l g)) = applyParsed l g
    show canonGrid p.1 (!p.2) (canonGrid p.1 p.2 (applyParsed l g)) = applyParsed l g
    rw [canonGrid_inverse]

theorem is_solved_of_faces (c : Cube) (h : c.faces = create_solved_cube) :
    is_solved c = true := by
  unfold is_solved
  rw [h]
  decide

theorem colorCount_applyParsed (l : List (FaceIdx × Bool)) (g : Grid) (a : Color) :
    colorCount (applyParsed l g) a = colorCount g a := by
  induction l generalizing g with
  | nil => rfl
  | cons p l ih =>
    show colorCount (applyParsed l (canonGrid p.1 p.2 g)) a = colorCount g a
    rw [ih, colorCount_canonGrid]

theorem colorCount_solved (a : Color) : colorCount create_solved_cube a = 9 := by
  cases a <;> rfl

/-! Claim theorems. -/

/-- C1: the claim that every face's clockwise quarter turn rotates the face's
own grid 90 degrees clockwise AND cycles the four adjacent strips in the
direction consistent with that rotation fails in the code for the Up (and
Down) face: from the solved state, `move_U(prime=False)` puts the old Left
top row (orange) on Front, while the spec's clockwise Up turn puts the old
Right top row (red) there — the code's strip cycle runs opposite to the
face's own rotation.  For Front, Back, Left and Right the implementation
agrees with the spec's rule on every state. -/
theorem claim_C1_U_strips_reversed :
    (move_U Cube.new false).faces FaceIdx.F 0 0 = Color.O
    ∧ specQuarterTurnCW FaceIdx.U Cube.new.faces FaceIdx.F 0 0 = Color.R
    ∧ (move_U Cube.new false).faces ≠ specQuarterTurnCW FaceIdx.U Cube.new.faces
    ∧ (move_D Cube.new false).faces ≠ specQuarterTurnCW FaceIdx.D Cube.new.faces
    ∧ (∀ g : Grid, gridF g = specQuarterTurnCW FaceIdx.F g)
    ∧ (∀ g : Grid, gridB g = specQuarterTurnCW FaceIdx.B g)
    ∧ (∀ g : Grid, gridL g = specQuarterTurnCW FaceIdx.L g)
    ∧ (∀ g : Grid, gridR g = specQuarterTurnCW FaceIdx.R g) := by
  refine ⟨rfl, rfl, by decide, by decide, fun g => rfl, fun g => rfl, fun g => rfl,
    fun g => rfl⟩

/-- The four-token test algorithm "R U R' U'" of
test_cube.py `test_sexy_move_six_times_returns_to_initial`. -/
def sexyMove : Tok := ['R', ' ', 'U', ' ', 'R', '\x27', ' ', 'U', '\x27']

/-- C2: starting from the solved state, applying the algorithm "R U R' U'"
six times in succession leaves a state on which `is_solved` returns true. -/
theorem claim_C2_sexy_six_solved :
    is_solved (execute_algorithm (execute_algorithm (execute_algorithm (execute_algorithm
      (execute_algorithm (execute_algorithm Cube.new sexyMove) sexyMove) sexyMove)
      sexyMove) sexyMove) sexyMove) = true := by
  decide

/-- C3: for every face and every state, four consecutive clockwise quarter
turns of that face restore the 54-facelet grid exactly. -/
theorem claim_C3_order_four (f : FaceIdx) (c : Cube) :
    (faceMove f (faceMove f (faceMove f (faceMove f c false) false) false) false).faces
      = c.faces := by
  cases f
  · exact gridU_four c.faces
  · exact gridD_four c.faces
  · exact gridF_four c.faces
  · exact gridB_four c.faces
  · exact gridL_four c.faces
  · exact gridR_four c.faces

/-- C4: for every face and every state, a clockwise quarter turn followed by
the prime (counter-clockwise) variant restores the facelet grid exactly. -/
theorem claim_C4_prime_is_inverse (f : FaceIdx) (c : Cube) :
    (faceMove f (faceMove f c false) true).faces = c.faces := by
  cases f
  · exact gridUprime_gridU c.faces
  · exact gridDprime_gridD c.faces
  · exact gridFprime_gridF c.faces
  · exact gridBprime_gridB c.faces
  · exact gridLprime_gridL c.faces
  · exact gridRprime_gridR c.faces

/-- C5: every `execute_move` call preserves the count of each of the six
colors among the 54 facelets, and consequently every state reached from the
solved state by any sequence of moves has exactly 9 facelets of each
color. -/
theorem claim_C5_color_multiset_invariant :
    (∀ (c : Cube) (move : Tok) (a : Color),
        colorCount (execute_move c move).faces a = colorCount c.faces a)
    ∧ (∀ (ms : List Tok) (a : Color),
        colorCount (apply_moves Cube.new ms).faces a = 9) := by
  constructor
  · intro c move a
    rw [execute_move_faces, colorCount_applyParsed]
  · intro ms a
    rw [apply_moves_faces, colorCount_applyParsed]
    exact colorCount_solved a

/-- C6: for every cube produced from the solved state by a sequence of
`execute_move` calls, reversing its recorded move log, inverting each token
with the solver's `_get_inverse_move`, and applying the result returns the
cube to a state on which `is_solved` is true. -/
theorem claim_C6_history_inversion_solves (ms : List Tok) :
    is_solved (apply_moves (apply_moves Cube.new ms)
      (((apply_moves Cube.new ms).move_history.reverse).map get_inverse_move)) = true := by
  apply is_solved_of_faces
  rw [apply_moves_history ms Cube.new, show Cube.new.move_history = [] from rfl,
    List.nil_append]
  exact replay_inverse (ms.flatMap parsedMoves) _ create_solved_cube
    (apply_moves_faces ms Cube.new)

/-- C7 (amended): a single `execute_move` call extends the move log by
exactly the canonical quarter-turn tokens it performs — one entry for a
well-formed plain or primed token, two entries (of the corresponding
quarter-turn token, not the original notation) for a '2'-suffixed token, and
no entry for a token that fails to parse. -/
theorem claim_C7_log_append (c : Cube) (move : Tok) :
    (execute_move c move).move_history =
      c.move_history ++ (parsedMoves move).map (fun p => canonTok p.1 p.2) :=
  execute_move_history c move

/-- C7 counterexample: executing the token "U2" on a fresh cube appends the
two entries "U", "U" to the move log, not the single entry "U2" that the
claim demands. -/
theorem claim_C7_counterexample :
    (execute_move Cube.new ['U', '2']).move_history = [['U'], ['U']]
    ∧ (execute_move Cube.new ['U', '2']).move_history ≠ [['U', '2']] := by
  exact ⟨rfl, by decide⟩

/-- C8: `undo_move` on an empty log reports failure and changes nothing; on
a log ending in token t it succeeds, shortens the log by exactly that entry,
and gives the grid obtained by executing t's cli inverse; when t is a
canonical quarter-turn token the grid is the exact inverse turn of the
current grid; and undoing after a single "U" from solved yields a solved
state with an empty log. -/
theorem claim_C8_undo_last :
    (∀ c : Cube, c.move_history = [] → undo_move c = (c, false))
    ∧ (∀ (c : Cube) (h : List Tok) (t : Tok), c.move_history = h ++ [t] →
        (undo_move c).2 = true
        ∧ (undo_move c).1.move_history = h
        ∧ (undo_move c).1.faces = (execute_move c (cli_inverse t)).faces)
    ∧ (∀ (c : Cube) (h : List Tok) (f : FaceIdx) (prime : Bool),
        c.move_history = h ++ [canonTok f prime] →
        (undo_move c).1.faces = canonGrid f (!prime) c.faces)
    ∧ is_solved (undo_move (execute_move Cube.new ['U'])).1 = true
    ∧ (undo_move (execute_move Cube.new ['U'])).1.move_history = [] := by
  refine ⟨?_, ?_, ?_, by decide, rfl⟩
  · intro c hc
    simp [undo_move, hc]
  · intro c h t hc
    have hlast : c.move_history.getLast? = some t := by
      rw [hc]; exact List.getLast?_concat _
    have hdrop : c.move_history.dropLast = h := by
      rw [hc]; exact List.dropLast_concat
    unfold undo_move
    rw [hlast]
    refine ⟨rfl, hdrop, ?_⟩
    show (execute_move { faces := c.faces, move_history := c.move_history.dropLast }
      (cli_inverse t)).faces = (execute_move c (cli_inverse t)).faces
    rw [execute_move_faces, execute_move_faces]
  · intro c h f prime hc
    have hlast : c.move_history.getLast? = some (canonTok f prime) := by
      rw [hc]; exact List.getLast?_concat _
    unfold undo_move
    rw [hlast]
    show (execute_move { faces := c.faces, move_history := c.move_history.dropLast }
      (cli_inverse (canonTok f prime))).faces = canonGrid f (!prime) c.faces
    rw [cli_inverse_canonTok, exec_canonTok, faceMove_eq]

/-- C9 counterexample: the claim that the own-grid part of a clockwise
quarter turn acts on the eight non-center cells as a single pure 8-cycle is
false: a marker color placed at the non-center corner cell (0,0) returns to
its place after only four applications of `_rotate_face_clockwise` (and does
move on the first), which is impossible for an 8-cycle. -/
theorem claim_C9_counterexample :
    rotateFaceCW (rotateFaceCW (rotateFaceCW (rotateFaceCW
        (fun i j => if i = 0 ∧ j = 0 then Color.W else Color.Y))))
      = (fun i j => if i = 0 ∧ j = 0 then Color.W else Color.Y)
    ∧ rotateFaceCW (fun i j => if i = 0 ∧ j = 0 then Color.W else Color.Y)
      ≠ (fun i j => if i = 0 ∧ j = 0 then Color.W else Color.Y) := by
  exact ⟨by decide, by decide⟩

/-- The four corner cells of a 3x3 face. -/
def cornerCells : List (Fin 3 × Fin 3) := [(0, 0), (0, 2), (2, 0), (2, 2)]

/-- The four edge (non-corner, non-center) cells of a 3x3 face. -/
def edgeCells : List (Fin 3 × Fin 3) := [(0, 1), (1, 0), (1, 2), (2, 1)]

/-- C9 (amended): the shared own-face clockwise rotation
`_rotate_face_clockwise` reads each new cell from the position table
`rotPos`, which fixes the center cell and acts on the eight non-center
cells as two disjoint 4-cycles — one on the four corner cells and one on
the four edge cells, every non-center cell having period exactly four. -/
theorem claim_C9_own_face_two_four_cycles :
    (∀ (face : Fin 3 → Fin 3 → Color) (i j : Fin 3),
        rotateFaceCW face i j = face (rotPos (i, j)).1 (rotPos (i, j)).2)
    ∧ rotPos (1, 1) = (1, 1)
    ∧ (∀ p : Fin 3 × Fin 3, p ∈ cornerCells → rotPos p ∈ cornerCells)
    ∧ (∀ p : Fin 3 × Fin 3, p ∈ edgeCells → rotPos p ∈ edgeCells)
    ∧ (∀ p : Fin 3 × Fin 3, p ≠ (1, 1) →
        rotPos^[4] p = p ∧ ∀ k < 4, 0 < k → rotPos^[k] p ≠ p) := by
  refine ⟨?_, rfl, by decide, by decide, by decide⟩
  intro face i j
  fin_cases i <;> fin_cases j <;> rfl

/-- C9 witness: the corner cell (0,0) is non-central, returns after four
steps of the rotation position table, and not after two. -/
theorem claim_C9_witness :
    rotPos^[4] ((0 : Fin 3), (0 : Fin 3)) = ((0 : Fin 3), (0 : Fin 3))
    ∧ rotPos^[2] ((0 : Fin 3), (0 : Fin 3)) ≠ ((0 : Fin 3), (0 : Fin 3)) :=
  ⟨(claim_C9_own_face_two_four_cycles.2.2.2.2 ((0 : Fin 3), (0 : Fin 3)) (by decide)).1,
    (claim_C9_own_face_two_four_cycles.2.2.2.2 ((0 : Fin 3), (0 : Fin 3)) (by decide)).2 2
      (by decide) (by decide)⟩

/-- C10: a token whose base letter — after stripping, dropping an optional
trailing '2' and then an optional trailing apostrophe — is not one of the
six face letters leaves the cube (grid and move log) completely
unchanged. -/
theorem claim_C10_malformed_rejected (c : Cube) (move : Tok)
    (h : faceOfTok (stripBase move) = none) : execute_move c move = c := by
  have hp : parsedMoves move = [] := by
    by_cases h1 : trimChars move = []
    · simp [parsedMoves, h1]
    · by_cases h2 : (trimChars move).getLast? = some '2'
      · by_cases h3 : (trimChars move).dropLast.getLast? = some '\x27'
        · have h4 : faceOfTok ((trimChars move).dropLast.dropLast) = none := by
            simpa [stripBase, h2, h3] using h
          simp [parsedMoves, h1, h2, h3, h4]
        · have h4 : faceOfTok ((trimChars move).dropLast) = none := by
            simpa [stripBase, h2, h3] using h
          simp [parsedMoves, h1, h2, h3, h4]
      · by_cases h3 : (trimChars move).getLast? = some '\x27'
        · have h4 : faceOfTok ((trimChars move).dropLast) = none := by
            simpa [stripBase, h2, h3] using h
          simp [parsedMoves, h1, h2, h3, h4]
        · have h4 : faceOfTok (trimChars move) = none := by
            simpa [stripBase, h2, h3] using h
          simp [parsedMoves, h1, h2, h3, h4]
  rw [execute_move_eq_foldl, hp]
  rfl

/-- C10 witness: the token "X" is rejected and leaves a fresh cube
unchanged. -/
theorem claim_C10_witness :
    faceOfTok (stripBase ['X']) = none ∧ execute_move Cube.new ['X'] = Cube.new :=
  ⟨by decide, claim_C10_malformed_rejected Cube.new ['X'] (by decide)⟩

end PyRubiksCube
